import Mathlib

/-!
Verification of the channel-test controller (`controller/channel-test.go`):
endpoint resolution, probe synthesis, override parsing, quota computation,
the single-probe audit discipline, the on-demand test handler, and the
fleet-sweep single-flight guard / ban decision.

Model names and override bodies are modelled as `List Char` / `String`;
machine floats in the pricing code are modelled as exact rationals with
explicit round-half-away-from-zero (Go `math.Round`) and truncation toward
zero (Go `int(...)` conversion).
-/

namespace ChannelTest

/-! ### String primitives (Go `strings` package operations used by the code) -/

/-- Go `strings.HasPrefix(s, p)`: `isPrefixCl p s` is true iff `p` is a prefix of `s`. -/
def isPrefixCl : List Char → List Char → Bool
  | [], _ => true
  | _ :: _, [] => false
  | p :: ps, c :: cs => p == c && isPrefixCl ps cs

/-- Go `strings.Contains(s, sub)`: some suffix of `s` starts with `sub`. -/
def containsSub : List Char → List Char → Bool
  | [], sub => isPrefixCl sub []
  | c :: cs, sub => isPrefixCl sub (c :: cs) || containsSub cs sub

/-- Go `strings.ToLower` (ASCII-relevant simple case mapping). -/
def toLowerCl (s : List Char) : List Char := s.map Char.toLower

/-- Go `strings.TrimSpace` on a `List Char` model: drop leading and trailing whitespace. -/
def trimCl (s : List Char) : List Char :=
  ((s.dropWhile Char.isWhitespace).reverse.dropWhile Char.isWhitespace).reverse

/-- Go `strings.TrimSpace` on a `String`. (Core `String.trim` is not used
because its byte-position recursion does not reduce in the kernel.) -/
def trimStr (s : String) : String := ⟨trimCl s.data⟩

/-! ### Numeric primitives -/

/-- Go `math.Round`: round half away from zero. -/
def rhafz (q : ℚ) : ℤ := if 0 ≤ q then ⌊q + 1/2⌋ else ⌈q - 1/2⌉

/-- Go numeric conversion `int(x)` / `int64(x)` from a float: truncation toward zero. -/
def truncQ (q : ℚ) : ℤ := if 0 ≤ q then ⌊q⌋ else ⌈q⌉

/-! ### Channel / endpoint data model -/

/-- The channel provider types this controller compares against
(`constant.ChannelType*`); all remaining provider types behave identically
here and are collapsed into `other`. -/
inductive ChannelType
  | midjourney | midjourneyPlus | sunoAPI | kling | jimeng | doubaoVideo | vidu
  | mokaAI | volcEngine | other
deriving DecidableEq, Repr

/-- `unsupportedTestChannelTypes` in `testChannel`. -/
def unsupportedTestChannelTypes : List ChannelType :=
  [.midjourney, .midjourneyPlus, .sunoAPI, .kling, .jimeng, .doubaoVideo, .vidu]

/-- The endpoint-type hints handled by the controller (`constant.EndpointType*`);
`unknownEp` stands for any non-empty hint that the static endpoint table does
not know. -/
inductive EndpointType
  | openAI | openAIResponse | anthropic | gemini | jinaRerank | imageGeneration
  | embeddings | unknownEp
deriving DecidableEq, Repr

/-- Modelled from the spec: `common.GetDefaultEndpointInfo` (not under src/) is a
static table mapping each known endpoint type 1:1 to its wire path; unknown
hints are not in the table. The paths are the ones the controller's own
path-based relay-format detection recognises. -/
def GetDefaultEndpointInfo : EndpointType → Option String
  | .openAI => some "/v1/chat/completions"
  | .openAIResponse => some "/v1/responses"
  | .anthropic => some "/v1/messages"
  | .gemini => some "/v1beta/models"
  | .jinaRerank => some "/v1/rerank"
  | .imageGeneration => some "/v1/images/generations"
  | .embeddings => some "/v1/embeddings"
  | .unknownEp => none

inductive RelayMode
  | chatCompletions | embeddings | imagesGenerations | rerank | responses | unknownMode
deriving DecidableEq, Repr

/-- Modelled from the spec: `relayconstant.Path2RelayMode` (not under src/) maps a
wire path to the internally-routed relay mode; paths outside the known table
yield `unknownMode` (the probe synthesizer treats everything that is not
embeddings/images/rerank/responses as chat/completion). -/
def Path2RelayMode (p : String) : RelayMode :=
  if p = "/v1/chat/completions" then .chatCompletions
  else if p = "/v1/embeddings" then .embeddings
  else if p = "/v1/images/generations" then .imagesGenerations
  else if p = "/v1/rerank" then .rerank
  else if p = "/v1/responses" then .responses
  else .unknownMode

inductive RelayFormat
  | openAI | openAIResponses | claude | gemini | rerank | openAIImage | embedding
deriving DecidableEq, Repr

/-- `testChannel` lines 232-251: relay format selected from a non-empty endpoint
hint; the switch's default is `RelayFormatOpenAI`. -/
def relayFormatFromHint : EndpointType → RelayFormat
  | .openAI => .openAI
  | .openAIResponse => .openAIResponses
  | .anthropic => .claude
  | .gemini => .gemini
  | .jinaRerank => .rerank
  | .imageGeneration => .openAIImage
  | .embeddings => .embedding
  | .unknownEp => .openAI

/-- `testChannel` lines 252-273: relay format auto-detected from the request
path (a chain of overwriting `if`s starting from `RelayFormatOpenAI`). -/
def relayFormatFromPath (p : String) : RelayFormat :=
  let f : RelayFormat := .openAI
  let f := if p = "/v1/embeddings" then .embedding else f
  let f := if p = "/v1/images/generations" then .openAIImage else f
  let f := if p = "/v1/messages" then .claude else f
  let f := if containsSub p.data "/v1beta/models".data then .gemini else f
  let f := if p = "/v1/rerank" ∨ p = "/rerank" then .rerank else f
  if p = "/v1/responses" then .openAIResponses else f

/-- The channel fields this controller reads. -/
structure Channel where
  id : ℤ
  name : String
  ctype : ChannelType
  testModel : Option (List Char)
  statusEnabled : Bool
  autoBan : Bool

/-! ### Endpoint resolution (shared by `testChannel` lines 165-192 and
`buildTestRequest` lines 609-630, which duplicate the same logic) -/

/-- The embedding-model condition of rule 1: only the `"embedding"` check is on
the lowercased name; `m3e` / `bge-` / `embed` are case-sensitive checks on the
original name. -/
def isEmbeddingModelCond (modelName : List Char) (ctypeIsMokaAI : Bool) : Bool :=
  containsSub (toLowerCl modelName) "embedding".data
    || isPrefixCl "m3e".data modelName
    || containsSub modelName "bge-".data
    || containsSub modelName "embed".data
    || ctypeIsMokaAI

/-- Path resolution: starts from `/v1/chat/completions`; with a hint, looks the
hint up in the endpoint table (unknown hints keep the default); without a
hint, applies the embedding rule, then the VolcEngine-seedream rule, then the
codex rule, each *overwriting* the previous assignment. -/
def resolveTestPath (modelName : List Char) (endpointType : Option EndpointType)
    (ctype : ChannelType) : String :=
  match endpointType with
  | some et =>
    match GetDefaultEndpointInfo et with
    | some p => p
    | none => "/v1/chat/completions"
  | none =>
    let lower := toLowerCl modelName
    let p : String := "/v1/chat/completions"
    let p := if isEmbeddingModelCond modelName (ctype = .mokaAI) then "/v1/embeddings" else p
    let p := if ctype = .volcEngine ∧ containsSub modelName "seedream".data
             then "/v1/images/generations" else p
    if containsSub lower "codex".data then "/v1/responses" else p

/-! ### Canonical request variants (`dto` request types as used here) -/

structure ChatMessage where
  role : String
  content : String
deriving DecidableEq, Repr

structure GeneralOpenAIRequest where
  model : List Char
  stream : Bool
  messages : List ChatMessage
  maxTokens : Nat
  maxCompletionTokens : Nat
deriving DecidableEq, Repr

structure EmbeddingRequest where
  model : List Char
  input : List String
deriving DecidableEq, Repr

structure ImageRequest where
  model : List Char
  prompt : String
  n : Nat
  size : String
deriving DecidableEq, Repr

structure RerankRequest where
  model : List Char
  query : String
  documents : List String
  topN : Nat
deriving DecidableEq, Repr

structure OpenAIResponsesRequest where
  model : List Char
  input : String
deriving DecidableEq, Repr

/-- `dto.Request` as used by this controller: the five concrete variants it
constructs, plus `unknownReq` standing for any other implementation of the Go
interface (never built here, but `requestTypeName` has a default for it). -/
inductive Request
  | general (r : GeneralOpenAIRequest)
  | embedding (r : EmbeddingRequest)
  | image (r : ImageRequest)
  | rerank (r : RerankRequest)
  | responses (r : OpenAIResponsesRequest)
  | unknownReq
deriving DecidableEq, Repr

/-- `requestTypeName` lines 39-54. -/
def requestTypeName : Request → String
  | .general _ => "chat_completions"
  | .embedding _ => "embeddings"
  | .image _ => "images"
  | .rerank _ => "rerank"
  | .responses _ => "responses"
  | .unknownReq => "unknown"

/-- `dto.Request.SetModelName` (behaviour visible from its per-variant uses in
this file): set the variant's model field. -/
def Request.setModelName : Request → List Char → Request
  | .general r, m => .general { r with model := m }
  | .embedding r, m => .embedding { r with model := m }
  | .image r, m => .image { r with model := m }
  | .rerank r, m => .rerank { r with model := m }
  | .responses r, m => .responses { r with model := m }
  | .unknownReq, _ => .unknownReq

/-- The chat/completion probe body of `buildTestRequest` lines 649-671:
one user message "hi", stream false, and the token-cap heuristic. A name
containing both "thinking" and "claude" (and not starting with "o") falls into
the inner `if` whose else-branch sets *no* cap at all (both fields stay 0). -/
def chatProbeRequest (modelName : List Char) : GeneralOpenAIRequest :=
  let base : GeneralOpenAIRequest :=
    { model := modelName, stream := false,
      messages := [{ role := "user", content := "hi" }],
      maxTokens := 0, maxCompletionTokens := 0 }
  if isPrefixCl "o".data modelName then { base with maxCompletionTokens := 16 }
  else if containsSub modelName "thinking".data then
    (if containsSub modelName "claude".data then base else { base with maxTokens := 50 })
  else if containsSub modelName "gemini".data then { base with maxTokens := 3000 }
  else { base with maxTokens := 16 }

/-- `buildTestRequest` lines 605-673: resolve the path, map it to a relay mode,
and synthesize the minimal probe body for that mode. -/
def buildTestRequest (modelName : List Char) (endpointType : Option EndpointType)
    (channel : Option Channel) : Request :=
  let ctype := match channel with
    | some ch => ch.ctype
    | none => ChannelType.other
  let requestPath := resolveTestPath modelName endpointType ctype
  match Path2RelayMode requestPath with
  | .embeddings => .embedding { model := modelName, input := ["hello world"] }
  | .imagesGenerations =>
      .image { model := modelName, prompt := "a cute cat", n := 1, size := "1024x1024" }
  | .rerank =>
      .rerank { model := modelName, query := "What is Deep Learning?",
                documents := ["Deep Learning is a subset of machine learning.",
                              "Machine learning is a field of artificial intelligence."],
                topN := 2 }
  | .responses => .responses { model := modelName, input := "hi" }
  | _ => .general (chatProbeRequest modelName)

/-! ### Pricing (`testChannel` lines 521-530) -/

structure PriceData where
  usePrice : Bool
  modelPrice : ℚ
  modelRatio : ℚ
  completionRatio : ℚ
deriving DecidableEq, Repr

structure Usage where
  promptTokens : ℤ
  completionTokens : ℤ
  cachedTokens : ℤ
deriving DecidableEq, Repr

/-- Quota computation of `testChannel` lines 521-530. Ratio branch: two-stage
`math.Round`, then the clamp-to-1 guard. Flat-price branch: Go
`int(priceData.ModelPrice * common.QuotaPerUnit)` — a plain conversion, which
*truncates* toward zero. -/
def computeQuota (usage : Usage) (p : PriceData) (quotaPerUnit : ℚ) : ℤ :=
  if !p.usePrice then
    let q1 : ℤ := usage.promptTokens + rhafz ((usage.completionTokens : ℚ) * p.completionRatio)
    let q2 : ℤ := rhafz ((q1 : ℚ) * p.modelRatio)
    if p.modelRatio ≠ 0 ∧ q2 ≤ 0 then 1 else q2
  else
    truncQ (p.modelPrice * quotaPerUnit)

/-- The ratio-branch quota written exactly as the spec describes it
(two-stage round-half-away-from-zero plus the clamp); compared against
`computeQuota` in the refinement theorem. -/
def specQuotaRatio (prompt completion : ℤ) (modelRatio completionRatio : ℚ) : ℤ :=
  let billedCompletion := rhafz ((completion : ℚ) * completionRatio)
  let q := rhafz (((prompt + billedCompletion : ℤ) : ℚ) * modelRatio)
  if modelRatio ≠ 0 ∧ q ≤ 0 then 1 else q

/-- The flat-price quota written exactly as the spec describes it
(`round(modelPrice * quotaPerUnit)`, round half away from zero). -/
def specQuotaFlat (modelPrice quotaPerUnit : ℚ) : ℤ := rhafz (modelPrice * quotaPerUnit)

/-! ### Override parsing (`parseTestRequestOverride` lines 558-603) -/

/-- JSON decoding (`json.Unmarshal` into each concrete request type) is
external; it is modelled as an oracle giving, per variant type, the decode
result for a raw body. -/
structure DecodeOracle where
  decGeneral : String → Option GeneralOpenAIRequest
  decEmbedding : String → Option EmbeddingRequest
  decImage : String → Option ImageRequest
  decRerank : String → Option RerankRequest
  decResponses : String → Option OpenAIResponsesRequest

/-- `parseTestRequestOverride`: trim, reject an all-blank body, decode the body
as the variant determined by the relay format, and force the decoded request's
model field to the probe's model; a decode failure is returned as a hard
error. -/
def parseTestRequestOverride (dec : DecodeOracle) (body : String) (testModel : List Char)
    (relayFormat : RelayFormat) : Except String Request :=
  let trimmed := trimStr body
  if trimmed = "" then .error "empty test_request_body"
  else
    match relayFormat with
    | .openAI | .claude | .gemini =>
      match dec.decGeneral trimmed with
      | none => .error "json unmarshal failed"
      | some r => .ok (.general { r with model := testModel })
    | .embedding =>
      match dec.decEmbedding trimmed with
      | none => .error "json unmarshal failed"
      | some r => .ok (.embedding { r with model := testModel })
    | .openAIImage =>
      match dec.decImage trimmed with
      | none => .error "json unmarshal failed"
      | some r => .ok (.image { r with model := testModel })
    | .rerank =>
      match dec.decRerank trimmed with
      | none => .error "json unmarshal failed"
      | some r => .ok (.rerank { r with model := testModel })
    | .openAIResponses =>
      match dec.decResponses trimmed with
      | none => .error "json unmarshal failed"
      | some r => .ok (.responses { r with model := testModel })

/-- `testChannel` lines 276-288: if the store holds a raw override body for the
model and it is not all-blank, parse it (replacing the synthesized request);
otherwise keep the synthesized request. -/
def selectProbeRequest (dec : DecodeOracle) (storedBody : Option String)
    (synthesized : Request) (testModel : List Char) (relayFormat : RelayFormat) :
    Except String Request :=
  match storedBody with
  | none => .ok synthesized
  | some body =>
    if trimStr body ≠ "" then parseTestRequestOverride dec body testModel relayFormat
    else .ok synthesized

/-- From the claim/spec: decode the stored body as "the same variant type the
resolver selected" for this relay format, without the model rewrite; used to
state the override-precedence refinement. -/
def variantDecode (dec : DecodeOracle) (relayFormat : RelayFormat) (s : String) :
    Option Request :=
  match relayFormat with
  | .openAI | .claude | .gemini => (dec.decGeneral s).map .general
  | .embedding => (dec.decEmbedding s).map .embedding
  | .openAIImage => (dec.decImage s).map .image
  | .rerank => (dec.decRerank s).map .rerank
  | .openAIResponses => (dec.decResponses s).map .responses

/-! ### The dispatch type-switch (`testChannel` lines 350-408) -/

/-- The `switch info.RelayMode` dispatch: asserts the request carries the
variant matching the relay mode; a mismatch is an "invalid ... request type"
error, never a coercion. The default case (chat/completion and any other
mode) expects the general variant. -/
def dispatchConvert (relayMode : RelayMode) (request : Request) : Except String Unit :=
  match relayMode with
  | .embeddings =>
    match request with
    | .embedding _ => .ok ()
    | _ => .error "invalid embedding request type"
  | .imagesGenerations =>
    match request with
    | .image _ => .ok ()
    | _ => .error "invalid image request type"
  | .rerank =>
    match request with
    | .rerank _ => .ok ()
    | _ => .error "invalid rerank request type"
  | .responses =>
    match request with
    | .responses _ => .ok ()
    | _ => .error "invalid response request type"
  | _ =>
    match request with
    | .general _ => .ok ()
    | _ => .error "invalid general request type"

/-! ### One probe (`testChannel` lines 128-556) -/

/-- One audit (consume-log) row as recorded by `model.RecordConsumeLog`
(the fields this controller sets that the claims mention). -/
structure ConsumeLogRecord where
  channelId : ℤ
  promptTokens : ℤ
  completionTokens : ℤ
  modelName : List Char
  quota : ℤ
  content : String
  isStream : Bool
deriving DecidableEq, Repr

/-- The result of one probe. In `testResult`, every failure return sets
`localErr`; `hasApiErr` records whether `newAPIError` was also set (false only
for the unsupported-provider and user-cache failures). -/
inductive TestOutcome
  | skipped
  | failed (msg : String) (hasApiErr : Bool)
  | succeeded
deriving DecidableEq, Repr

structure TestChannelResult where
  outcome : TestOutcome
  logs : List ConsumeLogRecord
deriving DecidableEq, Repr

/-- The external collaborators `testChannel` calls, modelled as an oracle
environment: each field is the outcome of one fallible step. -/
structure TestEnv where
  getUserCache : Except String Unit
  setupContext : Option String
  testRequestBody : Except String (Option String)
  dec : DecodeOracle
  genRelayInfo : Except String RelayMode
  modelMapped : Except String (List Char)
  adaptorExists : Bool
  priceData : Except String PriceData
  convertResult : Option String
  marshalErr : Option String
  hasParamOverride : Bool
  applyParamOverrideErr : Option String
  doRequest : Except String (Option ℤ)
  classifyMsg : String
  doResponse : Except String (Option Usage)
  readBodyErr : Option String
  isStream : Bool

/-- `testChannel` lines 150-157: explicit argument (trimmed), else the
channel's stored test model (skip when absent or empty). -/
def resolveTestModel (channel : Channel) (arg : List Char) : Option (List Char) :=
  let tm := trimCl arg
  if tm = [] then
    match channel.testModel with
    | some t => if t ≠ [] then some (trimCl t) else none
    | none => none
  else some tm

/-- `recordFailedChannelTestLog` lines 99-126: the audit row written for a
failed probe (quota 0, zero token counts, not streamed). -/
def failedLogRecord (channel : Channel) (modelName : List Char) : ConsumeLogRecord :=
  { channelId := channel.id, promptTokens := 0, completionTokens := 0,
    modelName := modelName, quota := 0, content := "模型测试（失败）", isStream := false }

/-- `testChannel` lines 128-556 as a state machine over the oracle environment.
The unsupported-provider check and the skip check run *before* the audit
`defer` of lines 158-163 is installed, so those two paths write no audit row;
every later exit writes exactly one (either explicitly with the
`recordedConsumeLog` flag set, or through the deferred fallback). Failure
rows after the model-mapping step carry the upstream model name (the Go
`testModel` variable is reassigned at line 316); the success row carries
`info.OriginModelName`, the pre-mapping model. -/
def testChannelModel (env : TestEnv) (channel : Channel) (testModelArg : List Char)
    (endpointType : Option EndpointType) (quotaPerUnit : ℚ) : TestChannelResult :=
  if channel.ctype ∈ unsupportedTestChannelTypes then
    { outcome := .failed "channel test is not supported" false, logs := [] }
  else
    match resolveTestModel channel testModelArg with
    | none => { outcome := .skipped, logs := [] }
    | some testModel =>
      match env.getUserCache with
      | .error e => { outcome := .failed e false, logs := [failedLogRecord channel testModel] }
      | .ok _ =>
      match env.setupContext with
      | some e => { outcome := .failed e true, logs := [failedLogRecord channel testModel] }
      | none =>
      let requestPath := resolveTestPath testModel endpointType channel.ctype
      let relayFormat :=
        match endpointType with
        | some et => relayFormatFromHint et
        | none => relayFormatFromPath requestPath
      let synthesized := buildTestRequest testModel endpointType (some channel)
      match env.testRequestBody with
      | .error e => { outcome := .failed e true, logs := [failedLogRecord channel testModel] }
      | .ok storedBody =>
      match selectProbeRequest env.dec storedBody synthesized testModel relayFormat with
      | .error e => { outcome := .failed e true, logs := [failedLogRecord channel testModel] }
      | .ok request =>
      match env.genRelayInfo with
      | .error e => { outcome := .failed e true, logs := [failedLogRecord channel testModel] }
      | .ok relayMode =>
      match env.modelMapped with
      | .error e => { outcome := .failed e true, logs := [failedLogRecord channel testModel] }
      | .ok upstreamModel =>
      let request := request.setModelName upstreamModel
      if !env.adaptorExists then
        { outcome := .failed "invalid api type: adaptor is nil" true,
          logs := [failedLogRecord channel upstreamModel] }
      else
      match env.priceData with
      | .error e => { outcome := .failed e true, logs := [failedLogRecord channel upstreamModel] }
      | .ok priceData =>
      match dispatchConvert relayMode request with
      | .error e => { outcome := .failed e true, logs := [failedLogRecord channel upstreamModel] }
      | .ok _ =>
      match env.convertResult with
      | some e => { outcome := .failed e true, logs := [failedLogRecord channel upstreamModel] }
      | none =>
      match env.marshalErr with
      | some e => { outcome := .failed e true, logs := [failedLogRecord channel upstreamModel] }
      | none =>
      match (if env.hasParamOverride then env.applyParamOverrideErr else none) with
      | some e => { outcome := .failed e true, logs := [failedLogRecord channel upstreamModel] }
      | none =>
      match env.doRequest with
      | .error e => { outcome := .failed e true, logs := [failedLogRecord channel upstreamModel] }
      | .ok respStatus =>
      if Option.any (fun s => s != 200) respStatus then
        { outcome := .failed env.classifyMsg true,
          logs := [failedLogRecord channel upstreamModel] }
      else
      match env.doResponse with
      | .error e => { outcome := .failed e true, logs := [failedLogRecord channel upstreamModel] }
      | .ok none =>
        { outcome := .failed "usage is nil" true,
          logs := [failedLogRecord channel upstreamModel] }
      | .ok (some usage) =>
      match env.readBodyErr with
      | some e => { outcome := .failed e true, logs := [failedLogRecord channel upstreamModel] }
      | none =>
        { outcome := .succeeded,
          logs := [{ channelId := channel.id,
                     promptTokens := usage.promptTokens,
                     completionTokens := usage.completionTokens,
                     modelName := testModel,
                     quota := computeQuota usage priceData quotaPerUnit,
                     content := "模型测试",
                     isStream := env.isStream }] }

/-! ### The on-demand endpoint (`TestChannel` lines 675-732) -/

structure HandlerResponse where
  success : Bool
  message : String
  time : ℚ
  skipped : Bool
deriving DecidableEq, Repr

/-- The `TestChannel` handler after channel lookup: run the probe and translate
the `testResult` to the JSON body. Every failure return of `testChannel` sets
`localErr`, so failures always take the early branch carrying `time: 0.0`; the
later `newAPIError` branch (which would carry the elapsed time) is
unreachable. Only the success branch reports the elapsed seconds. -/
def TestChannelHandler (env : TestEnv) (channel : Channel) (testModelArg : List Char)
    (endpointType : Option EndpointType) (quotaPerUnit : ℚ) (elapsedSeconds : ℚ) :
    HandlerResponse × List ConsumeLogRecord :=
  let r := testChannelModel env channel testModelArg endpointType quotaPerUnit
  let resp : HandlerResponse :=
    match r.outcome with
    | .skipped => { success := true, message := "", time := 0, skipped := true }
    | .failed msg _ => { success := false, message := msg, time := 0, skipped := false }
    | .succeeded => { success := true, message := "", time := elapsedSeconds, skipped := false }
  (resp, r.logs)

/-! ### Fleet sweep single-flight guard (`testAllChannels` lines 737-760, 806) -/

inductive SweepCallResult
  | alreadyRunning (msg : String)
  | fetchError (msg : String)
  | accepted
deriving DecidableEq, Repr

/-- The synchronous part of `testAllChannels`: under the lock, reject when the
running flag is set; otherwise set the flag; then fetch the channel list —
a fetch error is an early `return` (before the background body, which owns the
releasing `defer`, is ever scheduled); otherwise schedule the body and return
nil. Result: (call result, flag when the call returns, whether the background
body was scheduled). -/
def testAllChannelsCall (running : Bool) (fetch : Except String Unit) :
    SweepCallResult × Bool × Bool :=
  if running then (.alreadyRunning "测试已在运行中", running, false)
  else
    match fetch with
    | .error e => (.fetchError e, true, false)
    | .ok _ => (.accepted, true, true)

/-- The deferred finalizer at the top of the background sweep body
(lines 756-760): resets the running flag no matter how the body exits. -/
def sweepBodyFinalize (_flagAtBodyExit : Bool) : Bool := false

/-- The running flag once the invocation has fully completed: if a background
body was scheduled, its deferred finalizer resets the flag (whether the body
succeeded or failed); otherwise the flag keeps whatever the synchronous part
left in it. -/
def flagAfterCompletion (running : Bool) (fetch : Except String Unit) : Bool :=
  let r := testAllChannelsCall running fetch
  if r.2.2 then sweepBodyFinalize r.2.1 else r.2.1

/-! ### Fleet sweep ban decision (`testAllChannels` lines 750-753, 772-786) -/

/-- Lines 750-753: the latency threshold in milliseconds,
`int64(common.ChannelDisableThreshold * 1000)`; a configured 0 is replaced by
the "impossible" sentinel 10000000. -/
def effectiveDisableThreshold (channelDisableThresholdSeconds : ℚ) : ℤ :=
  let t := truncQ (channelDisableThresholdSeconds * 1000)
  if t = 0 then 10000000 else t

/-- The per-channel ban decision of lines 772-786. `errBanPolicy` is the oracle
result of `service.ShouldDisableChannel`, consulted only when the probe
returned a `newAPIError`; the latency comparison runs only when
`common.AutomaticDisableChannelEnabled` is set and no error-based ban fired. -/
def sweepShouldBan (hasApiErr errBanPolicy autoDisableEnabled : Bool)
    (milliseconds threshold : ℤ) : Bool :=
  let b := if hasApiErr then errBanPolicy else false
  if autoDisableEnabled && !b then
    (if milliseconds > threshold then true else b)
  else b

/-! ### Concrete fixtures used to evaluate the model -/

/-- A decode oracle on which every JSON decode fails. -/
def noDecode : DecodeOracle :=
  { decGeneral := fun _ => none, decEmbedding := fun _ => none, decImage := fun _ => none,
    decRerank := fun _ => none, decResponses := fun _ => none }

/-- An environment where every external step succeeds. -/
def baseEnv : TestEnv :=
  { getUserCache := .ok (), setupContext := none, testRequestBody := .ok none,
    dec := noDecode, genRelayInfo := .ok .chatCompletions, modelMapped := .ok "gpt-4".data,
    adaptorExists := true,
    priceData := .ok { usePrice := false, modelPrice := 0, modelRatio := 2,
                       completionRatio := 3/2 },
    convertResult := none, marshalErr := none, hasParamOverride := false,
    applyParamOverrideErr := none, doRequest := .ok (some 200),
    classifyMsg := "bad response",
    doResponse := .ok (some { promptTokens := 100, completionTokens := 50, cachedTokens := 0 }),
    readBodyErr := none, isStream := false }

/-- An environment where the user-cache lookup fails. -/
def envCacheFail : TestEnv := { baseEnv with getUserCache := .error "db down" }

/-- An environment holding a stored override body decoded by `dec`. -/
def envWithOverride (dec : DecodeOracle) (body : String) : TestEnv :=
  { baseEnv with dec := dec, testRequestBody := .ok (some body) }

/-- An ordinary testable channel with a stored test model. -/
def chNormal : Channel :=
  { id := 7, name := "ch", ctype := .other, testModel := some "gpt-4".data,
    statusEnabled := true, autoBan := true }

/-- The same channel with an unsupported (Midjourney) provider type. -/
def chMJ : Channel := { chNormal with ctype := .midjourney }

/-- An environment whose provider answers with the given HTTP status and
whose error classifier yields the given message. -/
def envBadStatus (status : ℤ) (msg : String) : TestEnv :=
  { baseEnv with doRequest := .ok (some status), classifyMsg := msg }

/-! ### Theorems -/

/-- C1: evaluation of the single-flight guard. A second invocation while the
guard is held is rejected with the "already running" error, and once the
background body runs its deferred finalizer releases the guard — but when the
channel-list fetch fails, the invocation returns with the guard still held
(the releasing `defer` lives in the never-scheduled background body), so every
subsequent invocation is rejected forever. -/
theorem testAllChannels_single_flight_and_guard_leak :
    (testAllChannelsCall true (.ok ())).1 = .alreadyRunning "测试已在运行中"
    ∧ flagAfterCompletion false (.ok ()) = false
    ∧ (testAllChannelsCall (flagAfterCompletion false (.ok ())) (.ok ())).1 = .accepted
    ∧ (testAllChannelsCall false (.error "get channels failed")).1
        = .fetchError "get channels failed"
    ∧ flagAfterCompletion false (.error "get channels failed") = true
    ∧ (testAllChannelsCall (flagAfterCompletion false (.error "get channels failed"))
        (.ok ())).1 = .alreadyRunning "测试已在运行中" := by
  decide

/-- C2 counterexample: a probe of an unsupported provider type fails (it is not
Skipped) yet emits zero audit records, because the unsupported-type check runs
before the audit `defer` is installed. -/
theorem testChannel_unsupported_zero_audit :
    (testChannelModel baseEnv chMJ "gpt-4".data none 500000).outcome ≠ .skipped
    ∧ (testChannelModel baseEnv chMJ "gpt-4".data none 500000).logs.length = 0 := by
  decide

/-- C2 (amended): for every probe of a provider type outside the unsupported
set whose outcome is not Skipped, exactly one audit record is emitted. -/
theorem testChannel_one_audit_per_probe (env : TestEnv) (ch : Channel) (arg : List Char)
    (et : Option EndpointType) (qpu : ℚ)
    (hns : ch.ctype ∉ unsupportedTestChannelTypes)
    (hout : (testChannelModel env ch arg et qpu).outcome ≠ .skipped) :
    (testChannelModel env ch arg et qpu).logs.length = 1 := by
  unfold testChannelModel at hout ⊢
  rw [if_neg hns] at hout ⊢
  cases hrm : resolveTestModel ch arg with
  | none => simp [hrm] at hout
  | some tm =>
    simp only [hrm]
    repeat' split
    all_goals rfl

/-- C2 witness: a supported channel whose probe fails at the user-cache step
yields a non-skipped outcome with exactly one audit record. -/
theorem testChannel_one_audit_per_probe_witness :
    chNormal.ctype ∉ unsupportedTestChannelTypes
    ∧ (testChannelModel envCacheFail chNormal "gpt-4".data none 500000).outcome ≠ .skipped
    ∧ (testChannelModel envCacheFail chNormal "gpt-4".data none 500000).logs.length = 1 :=
  ⟨by decide, by decide,
    testChannel_one_audit_per_probe envCacheFail chNormal "gpt-4".data none 500000
      (by decide) (by decide)⟩

/-- C3: with `UsePrice` false the quota equals the spec's two-stage
round-half-away-from-zero formula with the clamp-to-1 guard, and the two
reference computations hold: {prompt 100, completion 50} with modelRatio 2 and
completionRatio 1.5 gives 350, and {0,0} with modelRatio 0.01 clamps to 1. -/
theorem quota_ratio_two_stage_round (usage : Usage) (p : PriceData) (qpu : ℚ)
    (h : p.usePrice = false) :
    computeQuota usage p qpu
      = specQuotaRatio usage.promptTokens usage.completionTokens p.modelRatio p.completionRatio
    ∧ computeQuota ⟨100, 50, 0⟩ ⟨false, 0, 2, 3/2⟩ qpu = 350
    ∧ computeQuota ⟨0, 0, 0⟩ ⟨false, 0, 1/100, 3/2⟩ qpu = 1 := by
  refine ⟨by simp [computeQuota, specQuotaRatio, h], ?_, ?_⟩ <;>
    norm_num [computeQuota, rhafz]

/-- C3 witness: the ratio-pricing theorem applied at the reference inputs. -/
theorem quota_ratio_two_stage_round_witness :
    (⟨false, 0, 2, 3/2⟩ : PriceData).usePrice = false
    ∧ (computeQuota ⟨100, 50, 0⟩ ⟨false, 0, 2, 3/2⟩ 500000
        = specQuotaRatio 100 50 2 (3/2)
       ∧ computeQuota ⟨100, 50, 0⟩ ⟨false, 0, 2, 3/2⟩ 500000 = 350
       ∧ computeQuota ⟨0, 0, 0⟩ ⟨false, 0, 1/100, 3/2⟩ 500000 = 1) :=
  ⟨rfl, quota_ratio_two_stage_round ⟨100, 50, 0⟩ ⟨false, 0, 2, 3/2⟩ 500000 rfl⟩

/-- C4 counterexample: flat pricing in the code truncates — at modelPrice
3e-6 and quotaPerUnit 500000 the product is 3/2, the code charges 1 while the
claim's `round(modelPrice * quotaPerUnit)` would give 2. -/
theorem quota_flat_rounding_counterexample :
    computeQuota ⟨0, 0, 0⟩ ⟨true, 3/1000000, 0, 0⟩ 500000 = 1
    ∧ specQuotaFlat (3/1000000) 500000 = 2 := by
  constructor <;> norm_num [computeQuota, specQuotaFlat, truncQ, rhafz]

/-- C4 (amended): with `UsePrice` true the quota is the *truncation* toward
zero of modelPrice * quotaPerUnit, independent of the token counts; the
reference computation 0.002 * 500000 = 1000 holds since the product is
integral. -/
theorem quota_flat_truncation (usage usage' : Usage) (p : PriceData) (qpu : ℚ)
    (h : p.usePrice = true) :
    computeQuota usage p qpu = truncQ (p.modelPrice * qpu)
    ∧ computeQuota usage p qpu = computeQuota usage' p qpu
    ∧ computeQuota usage ⟨true, 2/1000, 0, 0⟩ 500000 = 1000 := by
  refine ⟨by simp [computeQuota, h], by simp [computeQuota, h], ?_⟩
  norm_num [computeQuota, truncQ]

/-- C4 witness: the flat-pricing theorem applied at concrete distinct usages. -/
theorem quota_flat_truncation_witness :
    (⟨true, 2/1000, 0, 0⟩ : PriceData).usePrice = true
    ∧ (computeQuota ⟨1, 2, 3⟩ ⟨true, 2/1000, 0, 0⟩ 500000
        = truncQ ((⟨true, 2/1000, 0, 0⟩ : PriceData).modelPrice * 500000)
       ∧ computeQuota ⟨1, 2, 3⟩ ⟨true, 2/1000, 0, 0⟩ 500000
           = computeQuota ⟨40, 50, 60⟩ ⟨true, 2/1000, 0, 0⟩ 500000
       ∧ computeQuota ⟨1, 2, 3⟩ ⟨true, 2/1000, 0, 0⟩ 500000 = 1000) :=
  ⟨rfl, quota_flat_truncation ⟨1, 2, 3⟩ ⟨40, 50, 60⟩ ⟨true, 2/1000, 0, 0⟩ 500000 rfl⟩

/-- C5 counterexample: "codex-embedding" matches rule 1 (contains
"embedding"), yet it resolves to the responses path, because the codex rule is
applied last and overwrites the embeddings assignment. -/
theorem resolve_embedding_rule_overridden_by_codex :
    isEmbeddingModelCond "codex-embedding".data false = true
    ∧ resolveTestPath "codex-embedding".data none .other ≠ "/v1/embeddings"
    ∧ resolveTestPath "codex-embedding".data none .other = "/v1/responses" := by
  decide

/-- C5 (amended): with no hint the rules are applied as sequential overwrites,
so the *last* matching rule wins — any model whose lowercased name contains
"codex" resolves to the responses path even when it also matches the embedding
rule; the embedding rule only prevails when neither the codex rule nor the
VolcEngine-seedream rule matches; with no matching rule the default is the
chat-completion path. -/
theorem resolve_rules_last_match_wins (m : List Char) (ct : ChannelType) :
    (containsSub (toLowerCl m) "codex".data = true →
      resolveTestPath m none ct = "/v1/responses")
    ∧ (isEmbeddingModelCond m (ct = .mokaAI) = true →
        containsSub (toLowerCl m) "codex".data = false →
        ¬(ct = .volcEngine ∧ containsSub m "seedream".data = true) →
        resolveTestPath m none ct = "/v1/embeddings")
    ∧ (isEmbeddingModelCond m (ct = .mokaAI) = false →
        containsSub (toLowerCl m) "codex".data = false →
        ¬(ct = .volcEngine ∧ containsSub m "seedream".data = true) →
        resolveTestPath m none ct = "/v1/chat/completions") := by
  refine ⟨fun h1 => ?_, fun h1 h2 h3 => ?_, fun h1 h2 h3 => ?_⟩ <;>
    simp only [resolveTestPath] <;> split_ifs <;> simp_all

/-- C5 witness: the amended resolution theorem applied to "codex-embedding". -/
theorem resolve_rules_last_match_wins_witness :
    containsSub (toLowerCl "codex-embedding".data) "codex".data = true
    ∧ resolveTestPath "codex-embedding".data none .other = "/v1/responses" :=
  ⟨by decide, (resolve_rules_last_match_wins "codex-embedding".data .other).1 (by decide)⟩

/-- C6 counterexample: a model containing both "thinking" and "claude" gets
*no* token-limit field at all (both caps stay 0), not a cap of 16. -/
theorem chat_probe_thinking_claude_capless :
    buildTestRequest "claude-thinking".data none none =
      .general { model := "claude-thinking".data, stream := false,
                 messages := [{ role := "user", content := "hi" }],
                 maxTokens := 0, maxCompletionTokens := 0 }
    ∧ (chatProbeRequest "claude-thinking".data).maxTokens ≠ 16
    ∧ (chatProbeRequest "claude-thinking".data).maxCompletionTokens ≠ 16 := by
  decide

/-- C6 (amended): every chat-variant probe request carries one user message
"hi" with stream false, a completion-token cap of 16 exactly for names
starting with "o", and a max-token cap of 50 for thinking-without-claude,
3000 for gemini, 16 otherwise — except that names containing both "thinking"
and "claude" (and not starting with "o") get no cap at all. -/
theorem chat_probe_request_shape (m : List Char) (et : Option EndpointType)
    (ch : Option Channel) (r : GeneralOpenAIRequest)
    (h : buildTestRequest m et ch = .general r) :
    r.model = m ∧ r.stream = false
    ∧ r.messages = [{ role := "user", content := "hi" }]
    ∧ r.maxCompletionTokens = (if isPrefixCl "o".data m then 16 else 0)
    ∧ r.maxTokens =
        (if isPrefixCl "o".data m then 0
         else if containsSub m "thinking".data then
           (if containsSub m "claude".data then 0 else 50)
         else if containsSub m "gemini".data then 3000
         else 16) := by
  have hr : r = chatProbeRequest m := by
    simp only [buildTestRequest] at h
    split at h <;> simp_all [eq_comm]
  subst hr
  simp only [chatProbeRequest]
  split_ifs <;> simp_all

/-- C6 witness: the chat-probe shape theorem applied to "gpt-4". -/
theorem chat_probe_request_shape_witness :
    buildTestRequest "gpt-4".data none none = .general (chatProbeRequest "gpt-4".data)
    ∧ ((chatProbeRequest "gpt-4".data).model = "gpt-4".data
       ∧ (chatProbeRequest "gpt-4".data).stream = false
       ∧ (chatProbeRequest "gpt-4".data).messages = [{ role := "user", content := "hi" }]
       ∧ (chatProbeRequest "gpt-4".data).maxCompletionTokens
           = (if isPrefixCl "o".data "gpt-4".data then 16 else 0)
       ∧ (chatProbeRequest "gpt-4".data).maxTokens
           = (if isPrefixCl "o".data "gpt-4".data then 0
              else if containsSub "gpt-4".data "thinking".data then
                (if containsSub "gpt-4".data "claude".data then 0 else 50)
              else if containsSub "gpt-4".data "gemini".data then 3000
              else 16)) :=
  ⟨by decide,
    chat_probe_request_shape "gpt-4".data none none (chatProbeRequest "gpt-4".data) (by decide)⟩

/-- C7: a non-blank stored override body is decoded as exactly the variant the
resolver selected for the relay format, replaces the synthesized request
entirely (the result does not depend on it), has its model field forced to the
probe's model, and a decode failure is a hard probe error: a probe whose
stored chat-format body fails to decode ends Failed. -/
theorem override_replaces_synthesized_request (dec : DecodeOracle) (body : String)
    (tm : List Char) (rf : RelayFormat) (synth : Request) (h : trimStr body ≠ "") :
    selectProbeRequest dec (some body) synth tm rf
      = (match variantDecode dec rf (trimStr body) with
         | some r => .ok (r.setModelName tm)
         | none => .error "json unmarshal failed")
    ∧ (dec.decGeneral (trimStr body) = none →
        (testChannelModel (envWithOverride dec body) chNormal "gpt-4".data none 500000).outcome
          = .failed "json unmarshal failed" true) := by
  constructor
  · cases rf
    case openAI =>
      simp only [selectProbeRequest, parseTestRequestOverride, variantDecode]
      cases hd : dec.decGeneral (trimStr body) <;> simp [h, hd, Request.setModelName]
    case claude =>
      simp only [selectProbeRequest, parseTestRequestOverride, variantDecode]
      cases hd : dec.decGeneral (trimStr body) <;> simp [h, hd, Request.setModelName]
    case gemini =>
      simp only [selectProbeRequest, parseTestRequestOverride, variantDecode]
      cases hd : dec.decGeneral (trimStr body) <;> simp [h, hd, Request.setModelName]
    case embedding =>
      simp only [selectProbeRequest, parseTestRequestOverride, variantDecode]
      cases hd : dec.decEmbedding (trimStr body) <;> simp [h, hd, Request.setModelName]
    case openAIImage =>
      simp only [selectProbeRequest, parseTestRequestOverride, variantDecode]
      cases hd : dec.decImage (trimStr body) <;> simp [h, hd, Request.setModelName]
    case rerank =>
      simp only [selectProbeRequest, parseTestRequestOverride, variantDecode]
      cases hd : dec.decRerank (trimStr body) <;> simp [h, hd, Request.setModelName]
    case openAIResponses =>
      simp only [selectProbeRequest, parseTestRequestOverride, variantDecode]
      cases hd : dec.decResponses (trimStr body) <;> simp [h, hd, Request.setModelName]
  · intro hdec
    have h1 : resolveTestModel chNormal "gpt-4".data = some "gpt-4".data := by decide
    have h2 : resolveTestPath "gpt-4".data none chNormal.ctype = "/v1/chat/completions" := by
      decide
    have h3 : relayFormatFromPath "/v1/chat/completions" = RelayFormat.openAI := by decide
    have h4 : ¬(chNormal.ctype ∈ unsupportedTestChannelTypes) := by decide
    simp [testChannelModel, envWithOverride, baseEnv, selectProbeRequest,
      parseTestRequestOverride, h, hdec, h1, h2, h3, h4]

/-- C7 witness: the override theorem applied to a body that no decoder
accepts. -/
theorem override_replaces_synthesized_request_witness :
    trimStr "not json" ≠ ""
    ∧ (selectProbeRequest noDecode (some "not json") Request.unknownReq "m1".data .openAI
        = (match variantDecode noDecode .openAI (trimStr "not json") with
           | some r => .ok (r.setModelName "m1".data)
           | none => .error "json unmarshal failed")
       ∧ (noDecode.decGeneral (trimStr "not json") = none →
           (testChannelModel (envWithOverride noDecode "not json") chNormal "gpt-4".data
               none 500000).outcome = .failed "json unmarshal failed" true)) :=
  ⟨by decide,
    override_replaces_synthesized_request noDecode "not json" "m1".data .openAI
      Request.unknownReq (by decide)⟩

/-- C8: the sweep's ban decision consults the error-classification policy
first and evaluates the latency comparison only when the automatic-disable
flag is set and no error ban fired; a threshold configured as 0 becomes the
sentinel 10000000 ms, so it never triggers on latency for any sweep whose
probe stays within that bound (not "always trigger"). -/
theorem sweep_ban_error_first_latency_sentinel (hasApiErr errBan autoDisable : Bool)
    (ms t : ℤ) (hms : ms ≤ 10000000) :
    sweepShouldBan hasApiErr errBan autoDisable ms t
      = ((hasApiErr && errBan) || (autoDisable && !(hasApiErr && errBan) && decide (ms > t)))
    ∧ effectiveDisableThreshold 0 = 10000000
    ∧ sweepShouldBan false errBan autoDisable ms (effectiveDisableThreshold 0) = false := by
  have he : effectiveDisableThreshold 0 = 10000000 := by
    norm_num [effectiveDisableThreshold, truncQ]
  refine ⟨?_, he, ?_⟩
  · cases hasApiErr <;> cases errBan <;> cases autoDisable <;>
      simp [sweepShouldBan] <;> split_ifs <;> simp_all
  · have hlt : ¬(ms > 10000000) := by omega
    rw [he]
    cases autoDisable <;> simp [sweepShouldBan, hlt]

/-- C8 witness: the ban-decision theorem applied at concrete flags, a 1500 ms
probe, and a 3000 ms threshold. -/
theorem sweep_ban_error_first_latency_sentinel_witness :
    (1500 : ℤ) ≤ 10000000
    ∧ (sweepShouldBan true true false 1500 3000
        = ((true && true) || (false && !(true && true) && decide ((1500 : ℤ) > 3000)))
       ∧ effectiveDisableThreshold 0 = 10000000
       ∧ sweepShouldBan false true false 1500 (effectiveDisableThreshold 0) = false) :=
  ⟨by decide, sweep_ban_error_first_latency_sentinel true true false 1500 3000 (by decide)⟩

/-- C9 counterexample: a probe whose provider answers HTTP 503 makes the
endpoint respond success=false with the classified reason but with time 0.0 —
not the elapsed seconds (here 7/2) — while recording exactly one quota-0 audit
entry; the failure return sets `localErr`, so the handler's elapsed-time
branch is never reached. -/
theorem probe_bad_status_time_zero :
    (TestChannelHandler (envBadStatus 503 "upstream unavailable")
        chNormal "gpt-4".data none 500000 (7/2)).1
      = { success := false, message := "upstream unavailable", time := 0, skipped := false }
    ∧ (0 : ℚ) ≠ 7/2
    ∧ (TestChannelHandler (envBadStatus 503 "upstream unavailable")
        chNormal "gpt-4".data none 500000 (7/2)).2
      = [failedLogRecord chNormal "gpt-4".data]
    ∧ (failedLogRecord chNormal "gpt-4".data).quota = 0 := by
  refine ⟨rfl, by norm_num, rfl, rfl⟩

/-- C9 (amended): for every non-success provider status the endpoint responds
success=false with the classified message and a time field of 0.0, and exactly
one audit entry with quota 0 is recorded. -/
theorem probe_bad_status_response (status : ℤ) (msg : String) (elapsed : ℚ)
    (h : status ≠ 200) :
    (TestChannelHandler (envBadStatus status msg)
        chNormal "gpt-4".data none 500000 elapsed).1
      = { success := false, message := msg, time := 0, skipped := false }
    ∧ (TestChannelHandler (envBadStatus status msg)
        chNormal "gpt-4".data none 500000 elapsed).2
      = [failedLogRecord chNormal "gpt-4".data] := by
  have h1 : resolveTestModel chNormal "gpt-4".data = some "gpt-4".data := by decide
  have h2 : chNormal.ctype ∈ unsupportedTestChannelTypes ↔ False := by decide
  have hb : Option.any (fun s => s != 200) (some status) = true := by
    simp [Option.any, h]
  simp only [TestChannelHandler, testChannelModel, envBadStatus, baseEnv, chNormal, h1, h2,
    if_false, selectProbeRequest, hb, if_true]
  constructor <;> rfl

/-- C9 witness: the bad-status theorem applied at status 503. -/
theorem probe_bad_status_response_witness :
    (503 : ℤ) ≠ 200
    ∧ ((TestChannelHandler (envBadStatus 503 "unavailable")
          chNormal "gpt-4".data none 500000 2).1
        = { success := false, message := "unavailable", time := 0, skipped := false }
       ∧ (TestChannelHandler (envBadStatus 503 "unavailable")
          chNormal "gpt-4".data none 500000 2).2
        = [failedLogRecord chNormal "gpt-4".data]) :=
  ⟨by decide, probe_bad_status_response 503 "unavailable" 2 (by decide)⟩

/-- C10: for every model name, endpoint hint (known, unknown, or absent) and
channel, the synthesized probe request is one of the five concrete variants,
so its template type name is one of the five known names and never
"unknown". -/
theorem buildTestRequest_variant_total (m : List Char) (et : Option EndpointType)
    (ch : Option Channel) :
    requestTypeName (buildTestRequest m et ch)
      ∈ (["chat_completions", "embeddings", "images", "rerank", "responses"] : List String)
    ∧ requestTypeName (buildTestRequest m et ch) ≠ "unknown" := by
  simp only [buildTestRequest]
  split <;> simp [requestTypeName]

end ChannelTest
